import Mathlib

/-!
Verification of the portfolio builder pipeline (`src/builder.py`).

The script is a linear fetch → generate → deploy orchestration over three
external collaborators (GitHub profile API, OpenAI chat service, Vercel CLI).
We give a shallow embedding: each external collaborator is an oracle supplied
as input, and each Python function becomes a pure Lean function producing an
outcome record (printed console lines, files written, whether each step ran,
and the uncaught exception if one propagates).
-/

/-- JSON values, as produced by `response.json()` and consumed by
`json.dump` / `json.dumps` in `builder.py`.  Object entries keep insertion
order, matching Python dict semantics. -/
inductive Json where
  | null
  | bool (b : Bool)
  | num (n : Int)
  | str (s : String)
  | arr (elems : List Json)
  | obj (entries : List (String × Json))

/-- Lower-case hex digit. -/
def hexDigit (n : Nat) : Char :=
  if n < 10 then Char.ofNat (48 + n) else Char.ofNat (87 + n)

/-- Four lower-case hex digits, as in Python's \u escapes. -/
def hex4 (n : Nat) : String :=
  String.mk [hexDigit (n / 4096 % 16), hexDigit (n / 256 % 16),
             hexDigit (n / 16 % 16), hexDigit (n % 16)]

/-- Escape one character the way CPython's `json` module does with its default
`ensure_ascii=True`: the two-character escapes for quote, backslash and the
common control characters, `\uXXXX` for other control and all non-ASCII BMP
characters, and a UTF-16 surrogate pair for astral characters. -/
def pyEscapeChar (c : Char) : String :=
  if c = Char.ofNat 34 then "\\\""
  else if c = Char.ofNat 92 then "\\\\"
  else if c = Char.ofNat 10 then "\\n"
  else if c = Char.ofNat 9 then "\\t"
  else if c = Char.ofNat 13 then "\\r"
  else if c = Char.ofNat 8 then "\\b"
  else if c = Char.ofNat 12 then "\\f"
  else if c.toNat < 32 then "\\u" ++ hex4 c.toNat
  else if c.toNat < 127 then String.singleton c
  else if c.toNat < 65536 then "\\u" ++ hex4 c.toNat
  else
    "\\u" ++ hex4 (55296 + (c.toNat - 65536) / 1024) ++
    "\\u" ++ hex4 (56320 + (c.toNat - 65536) % 1024)

/-- A JSON string literal as written by `json.dump(s)`. -/
def pyJsonQuote (s : String) : String :=
  "\"" ++ String.join (s.toList.map pyEscapeChar) ++ "\""

mutual

/-- `json.dumps(x)` with the default separators `", "` and `": "`,
as used by `json.dump(vercel_config, file)` in `deploy_to_vercel`. -/
def Json.dumps : Json → String
  | .null => "null"
  | .bool b => if b then "true" else "false"
  | .num n => toString n
  | .str s => pyJsonQuote s
  | .arr es => "[" ++ Json.dumpsElems es ++ "]"
  | .obj kvs => "\x7b" ++ Json.dumpsEntries kvs ++ "\x7d"

/-- Array elements joined by `", "`. -/
def Json.dumpsElems : List Json → String
  | [] => ""
  | [e] => Json.dumps e
  | e :: e2 :: es => Json.dumps e ++ ", " ++ Json.dumpsElems (e2 :: es)

/-- Object entries joined by `", "`, each rendered `"key": value`. -/
def Json.dumpsEntries : List (String × Json) → String
  | [] => ""
  | [(k, v)] => pyJsonQuote k ++ ": " ++ Json.dumps v
  | (k, v) :: kv2 :: kvs =>
      pyJsonQuote k ++ ": " ++ Json.dumps v ++ ", " ++ Json.dumpsEntries (kv2 :: kvs)

end

/-- `n` spaces. -/
def pad (n : Nat) : String := String.mk (List.replicate n ' ')

mutual

/-- `json.dumps(x, indent=2)` rendered at indentation level `lvl`, as used in
the prompt f-string of `generate_website_content` (with `lvl = 0`).  With an
indent, Python separates items by `",\n"` plus indentation and keys from
values by `": "`; empty containers stay on one line. -/
def Json.dumpsIndent (lvl : Nat) : Json → String
  | .null => "null"
  | .bool b => if b then "true" else "false"
  | .num n => toString n
  | .str s => pyJsonQuote s
  | .arr [] => "[]"
  | .arr (e :: es) =>
      "[\n" ++ Json.dumpsIndentElems (lvl + 2) (e :: es) ++ "\n" ++ pad lvl ++ "]"
  | .obj [] => "\x7b\x7d"
  | .obj (kv :: kvs) =>
      "\x7b\n" ++ Json.dumpsIndentEntries (lvl + 2) (kv :: kvs) ++ "\n" ++ pad lvl ++ "\x7d"

/-- Indented array elements, one per line. -/
def Json.dumpsIndentElems (lvl : Nat) : List Json → String
  | [] => ""
  | [e] => pad lvl ++ Json.dumpsIndent lvl e
  | e :: e2 :: es =>
      pad lvl ++ Json.dumpsIndent lvl e ++ ",\n" ++ Json.dumpsIndentElems lvl (e2 :: es)

/-- Indented object entries, one per line. -/
def Json.dumpsIndentEntries (lvl : Nat) : List (String × Json) → String
  | [] => ""
  | [(k, v)] => pad lvl ++ pyJsonQuote k ++ ": " ++ Json.dumpsIndent lvl v
  | (k, v) :: kv2 :: kvs =>
      pad lvl ++ pyJsonQuote k ++ ": " ++ Json.dumpsIndent lvl v ++ ",\n" ++
      Json.dumpsIndentEntries lvl (kv2 :: kvs)

end

example : Json.dumps (.obj [("a", .num 1), ("b", .arr [.str "x", .null])]) =
    "\x7b\"a\": 1, \"b\": [\"x\", null]\x7d" := by decide

example : Json.dumpsIndent 0 (.obj [("a", .num 1)]) = "\x7b\n  \"a\": 1\n\x7d" := by decide

/-- Python's `str.strip()` character class: space, tab, newline, carriage
return, vertical tab, form feed. -/
def pyIsSpaceChar (c : Char) : Bool :=
  c = ' ' || c = Char.ofNat 9 || c = Char.ofNat 10 || c = Char.ofNat 13 ||
  c = Char.ofNat 11 || c = Char.ofNat 12

/-- Python's `str.strip()` with no argument: drop leading and trailing
whitespace. -/
def pyStrip (s : String) : String :=
  String.mk (((s.toList.dropWhile pyIsSpaceChar).reverse.dropWhile pyIsSpaceChar).reverse)

/-- Outcome of `subprocess.run(cmd, cwd=project_dir, capture_output=True,
text=True)`: the exit status and captured output streams. -/
structure CmdResult where
  returncode : Int
  stdout : String
  stderr : String

/-- The sequential effects inside the body of the `with` block of
`deploy_to_vercel`; used to name the point at which an injected unexpected
error is raised. -/
inductive DeployStep where
  | makedirs
  | writeHtml
  | writeConfig
  | runCmd
  | report
deriving DecidableEq, Repr

/-- An exception propagating out of the embedded code: the
`json.JSONDecodeError` from `response.json()`, an error raised by the chat
service inside `generate_website_content`, or an injected unexpected error
inside the `with` block of `deploy_to_vercel`. -/
inductive PyExc where
  | jsonDecodeError (msg : String)
  | generationError (msg : String)
  | unexpected (step : DeployStep)
deriving DecidableEq, Repr

/-- The external non-determinism `deploy_to_vercel` is exposed to: the result
of the deployment subprocess, and an optional unexpected error raised at one
of the body's steps (none in a normal run). -/
structure DeployEnv where
  cmdResult : CmdResult
  fault : Option DeployStep

/-- Observable outcome of `deploy_to_vercel`: files of the project
subdirectory when the body exits, whether/how the deployment command was
invoked, the project-directory contents at that moment, console lines
printed, the propagating exception if any, and whether the scoped temporary
directory still exists after the call returns or raises. -/
structure DeployOutcome where
  files : List (String × String)
  cmdInvoked : Bool
  cmdLine : Option (List String)
  filesAtInvoke : Option (List (String × String))
  printed : List String
  exc : Option PyExc
  tempDirExistsAfter : Bool

/-- State when the body of the `with` block in `deploy_to_vercel` exits
(normally or by exception); the temporary directory is still alive here. -/
structure DeployBodyResult where
  files : List (String × String)
  cmdInvoked : Bool
  cmdLine : Option (List String)
  filesAtInvoke : Option (List (String × String))
  printed : List String
  exc : Option PyExc

/-- The `vercel_config` dict built in `deploy_to_vercel` (lines 33–37). -/
def vercel_config (project_name : String) : Json :=
  .obj [("name", .str project_name),
        ("version", .num 2),
        ("builds", .arr [.obj [("src", .str "index.html"), ("use", .str "@vercel/static")]])]

/-- The body of the `with tempfile.TemporaryDirectory()` block of
`deploy_to_vercel` (lines 27–49): create the project subdirectory, write
`index.html` with the markup, write `vercel.json` with
`json.dump(vercel_config)`, run the `vercel` CLI there, and print the result.
An injected fault at a step raises before that step's effect happens and
skips the rest of the body. -/
def deployBody (env : DeployEnv) (vercel_token html_content project_name : String) :
    DeployBodyResult :=
  if env.fault = some .makedirs then
    { files := [], cmdInvoked := false, cmdLine := none, filesAtInvoke := none,
      printed := [], exc := some (.unexpected .makedirs) }
  else if env.fault = some .writeHtml then
    { files := [], cmdInvoked := false, cmdLine := none, filesAtInvoke := none,
      printed := [], exc := some (.unexpected .writeHtml) }
  else
    let files1 := [("index.html", html_content)]
    if env.fault = some .writeConfig then
      { files := files1, cmdInvoked := false, cmdLine := none, filesAtInvoke := none,
        printed := [], exc := some (.unexpected .writeConfig) }
    else
      let files2 := files1 ++ [("vercel.json", Json.dumps (vercel_config project_name))]
      if env.fault = some .runCmd then
        { files := files2, cmdInvoked := false, cmdLine := none, filesAtInvoke := none,
          printed := [], exc := some (.unexpected .runCmd) }
      else
        let cmd := ["vercel", "--token", vercel_token, "-y", "--prod"]
        let result := env.cmdResult
        if env.fault = some .report then
          { files := files2, cmdInvoked := true, cmdLine := some cmd,
            filesAtInvoke := some files2, printed := [], exc := some (.unexpected .report) }
        else if result.returncode = 0 then
          { files := files2, cmdInvoked := true, cmdLine := some cmd,
            filesAtInvoke := some files2,
            printed := ["Deployment successful!",
                        "Your website is live at: " ++ pyStrip result.stdout],
            exc := none }
        else
          { files := files2, cmdInvoked := true, cmdLine := some cmd,
            filesAtInvoke := some files2,
            printed := ["Deployment failed: " ++ result.stderr], exc := none }

/-- `deploy_to_vercel` (lines 24–49).  The `with
tempfile.TemporaryDirectory()` context manager removes the temporary
directory on every exit of the body — normal return or exception — so the
outcome always records the directory as gone, and any exception from the body
keeps propagating. -/
def deploy_to_vercel (env : DeployEnv) (vercel_token html_content project_name : String) :
    DeployOutcome :=
  let b := deployBody env vercel_token html_content project_name
  { files := b.files, cmdInvoked := b.cmdInvoked, cmdLine := b.cmdLine,
    filesAtInvoke := b.filesAtInvoke, printed := b.printed, exc := b.exc,
    tempDirExistsAfter := false }

/-- The `ChatOpenAI` client constructed in `generate_website_content`
(line 63): the API key and the two pinned sampling parameters. -/
structure ChatOpenAI where
  openai_api_key : String
  temperature : ℚ
  max_tokens : Nat

/-- Role of a chat message: `SystemMessage` or `HumanMessage`. -/
inductive MessageRole where
  | system
  | human
deriving DecidableEq, Repr

/-- One chat message. -/
structure ChatMessage where
  role : MessageRole
  content : String
deriving DecidableEq, Repr

/-- What `chat(messages)` submits to the generation service: the configured
client and the ordered message list. -/
structure ChatRequest where
  client : ChatOpenAI
  messages : List ChatMessage

/-- The `SystemMessage` content of line 66. -/
def systemMessageText : String :=
  "You are an expert web designer. Generate HTML and CSS code that is professional, aesthetically pleasing, and user-friendly."

/-- The fixed part of the prompt f-string (lines 53–59), up to the splice of
`json.dumps(github_profile, indent=2)`. -/
def promptIntro : String :=
  "Create a professional, elegant, and responsive portfolio website for a developer.\n        The website should include a navigation bar, a header section with the user\x27s name and a brief introduction,\n        an About Me section with the user\x27s profile image and a description, a Projects section showcasing the user\x27s work,\n        and a Contact section with a form. It should also include a footer with copyright information.\n        The design should be modern, with a clean layout, appealing visuals, and subtle animations.\n        Include the following information from the provided GitHub profile:\n        ---\n        "

/-- The prompt f-string of `generate_website_content` (lines 53–61): the
fixed instructions, then `json.dumps(github_profile, indent=2)`, then the
trailing newline and indentation before the closing quotes. -/
def promptText (github_profile : Json) : String :=
  promptIntro ++ Json.dumpsIndent 0 github_profile ++ "\n        "

/-- The request `generate_website_content` submits (lines 63–70): client with
`temperature=0.2`, `max_tokens=2500`, and the ordered pair
`[SystemMessage, HumanMessage]`. -/
def generationRequest (openai_api_key : String) (github_profile : Json) : ChatRequest :=
  { client := { openai_api_key := openai_api_key, temperature := 0.2, max_tokens := 2500 },
    messages := [{ role := .system, content := systemMessageText },
                 { role := .human, content := promptText github_profile }] }

/-- `generate_website_content` (lines 51–71), with the external generation
service as an oracle: submit the request and return `response.content`
verbatim; a service failure propagates as an error. -/
def generate_website_content (chatService : ChatRequest → Except String String)
    (openai_api_key : String) (github_profile : Json) : Except String String :=
  chatService (generationRequest openai_api_key github_profile)

/-- The external world a run of `create_portfolio_for_github_user` interacts
with: the profile fetch (HTTP status, and the outcome of decoding the body as
JSON), the generation service, and the deployment subprocess (plus optional
injected fault in the deploy body). -/
structure World where
  fetchStatus : Nat
  fetchJson : Except String Json
  chatService : ChatRequest → Except String String
  cmdResult : CmdResult
  deployFault : Option DeployStep

/-- Observable outcome of one run of `create_portfolio_for_github_user`:
console lines, whether the generation step was invoked, the deploy outcome if
`deploy_to_vercel` was called, and the propagating exception if any. -/
structure RunOutcome where
  printed : List String
  genInvoked : Bool
  deploy : Option DeployOutcome
  exc : Option PyExc

/-- `create_portfolio_for_github_user` (lines 73–83): fetch the profile; on a
non-200 status print the error message and return; otherwise decode the body
(`response.json()` raises on invalid JSON), generate the markup (a service
error raises), and deploy under the project name `<username>-portfolio`. -/
def create_portfolio_for_github_user (w : World)
    (vercel_token openai_api_key username : String) : RunOutcome :=
  if w.fetchStatus ≠ 200 then
    { printed := ["Error fetching GitHub profile data. Status code: " ++ toString w.fetchStatus],
      genInvoked := false, deploy := none, exc := none }
  else
    match w.fetchJson with
    | .error msg =>
        { printed := [], genInvoked := false, deploy := none,
          exc := some (.jsonDecodeError msg) }
    | .ok github_profile_data =>
        match generate_website_content w.chatService openai_api_key github_profile_data with
        | .error msg =>
            { printed := [], genInvoked := true, deploy := none,
              exc := some (.generationError msg) }
        | .ok html_content =>
            let d := deploy_to_vercel ⟨w.cmdResult, w.deployFault⟩ vercel_token
              html_content (username ++ "-portfolio")
            { printed := d.printed, genInvoked := true, deploy := some d, exc := d.exc }

/-- Files present in the temporary project directory over the whole run
(empty when `deploy_to_vercel` was never called, so no temporary directory
was ever created). -/
def RunOutcome.filesWritten (o : RunOutcome) : List (String × String) :=
  match o.deploy with
  | some d => d.files
  | none => []

/-- Whether the run ever invoked the deployment command. -/
def RunOutcome.deployCmdInvoked (o : RunOutcome) : Bool :=
  match o.deploy with
  | some d => d.cmdInvoked
  | none => false

/-- Content of a file of the temporary project directory, by name. -/
def RunOutcome.fileLookup (o : RunOutcome) (fname : String) : Option String :=
  o.filesWritten.lookup fname

/-- The startup credential check of lines 13–17: `os.getenv` yields `None`
when unset, and Python truthiness makes both `None` and the empty string
falsy, so either triggers the `raise ValueError(...)`. -/
def startupCheck (vercel_token openai_api_key : Option String) : Except String Unit :=
  if vercel_token.getD "" = "" || openai_api_key.getD "" = "" then
    .error "Environment variables for VERCEL_TOKEN or OPENAI_API_KEY are not set."
  else
    .ok ()

/-- The fixed manifest shape of spec §6 with the `name` field set to
`<identifier>-portfolio`.  Modelled from the spec's words, for comparison
against the `vercel_config` dict the code builds. -/
def specManifestShape (identifier : String) : Json :=
  .obj [("name", .str (identifier ++ "-portfolio")),
        ("version", .num 2),
        ("builds", .arr [.obj [("src", .str "index.html"), ("use", .str "@vercel/static")]])]

/-! ### Claim theorems -/

/-- C1: for every identifier, if the profile fetch returns a status other
than 200, `create_portfolio_for_github_user` prints the fetch-error message
carrying that status code and invokes neither the generation step nor the
deployment step. -/
theorem fetch_error_short_circuits (w : World)
    (vercel_token openai_api_key username : String) (h : w.fetchStatus ≠ 200) :
    (create_portfolio_for_github_user w vercel_token openai_api_key username).printed =
      ["Error fetching GitHub profile data. Status code: " ++ toString w.fetchStatus] ∧
    (create_portfolio_for_github_user w vercel_token openai_api_key username).genInvoked = false ∧
    (create_portfolio_for_github_user w vercel_token openai_api_key username).deploy = none ∧
    (create_portfolio_for_github_user w vercel_token openai_api_key username).exc = none := by
  simp [create_portfolio_for_github_user, h]

/-- C1 witness: status 404 for user `octocat`. -/
theorem fetch_error_short_circuits_witness :
    (404 : Nat) ≠ 200 ∧
    ((create_portfolio_for_github_user
        ⟨404, .ok (Json.obj []), fun _ => .ok "<html></html>", ⟨0, "", ""⟩, none⟩
        "tok" "key" "octocat").printed =
      ["Error fetching GitHub profile data. Status code: 404"] ∧
    (create_portfolio_for_github_user
        ⟨404, .ok (Json.obj []), fun _ => .ok "<html></html>", ⟨0, "", ""⟩, none⟩
        "tok" "key" "octocat").genInvoked = false ∧
    (create_portfolio_for_github_user
        ⟨404, .ok (Json.obj []), fun _ => .ok "<html></html>", ⟨0, "", ""⟩, none⟩
        "tok" "key" "octocat").deploy = none ∧
    (create_portfolio_for_github_user
        ⟨404, .ok (Json.obj []), fun _ => .ok "<html></html>", ⟨0, "", ""⟩, none⟩
        "tok" "key" "octocat").exc = none) :=
  ⟨by decide,
   fetch_error_short_circuits
     ⟨404, .ok (Json.obj []), fun _ => .ok "<html></html>", ⟨0, "", ""⟩, none⟩
     "tok" "key" "octocat" (by decide)⟩

/-- C2: for every markup string and project name, and on every exit path of
the body (success, deployment failure, or an unexpected error at any step),
the scoped temporary directory no longer exists after `deploy_to_vercel`
returns or raises. -/
theorem temp_dir_always_removed (env : DeployEnv)
    (vercel_token html_content project_name : String) :
    (deploy_to_vercel env vercel_token html_content project_name).tempDirExistsAfter = false :=
  rfl

/-- C3: for every string produced by the generation step, the markup file
written into the project subdirectory holds exactly that string. -/
theorem markup_written_verbatim (vercel_token html_content project_name : String)
    (res : CmdResult) :
    ((deploy_to_vercel ⟨res, none⟩ vercel_token html_content project_name).files).lookup
      "index.html" = some html_content := by
  by_cases hr : res.returncode = 0 <;>
    simp [deploy_to_vercel, deployBody, hr, List.lookup]

/-- C4: for every identifier, the manifest file the publisher writes is the
serialization of the fixed JSON shape of spec §6 whose `name` field is the
identifier followed by `-portfolio`. -/
theorem manifest_matches_spec_shape (vercel_token openai_api_key username html : String)
    (profile : Json) (res : CmdResult) :
    (create_portfolio_for_github_user ⟨200, .ok profile, fun _ => .ok html, res, none⟩
        vercel_token openai_api_key username).fileLookup "vercel.json" =
      some (Json.dumps (specManifestShape username)) := by
  by_cases hr : res.returncode = 0 <;>
    simp [create_portfolio_for_github_user, generate_website_content, deploy_to_vercel,
          deployBody, RunOutcome.fileLookup, RunOutcome.filesWritten, List.lookup, hr,
          vercel_config, specManifestShape]

/-- C5: every run of `deploy_to_vercel` that invokes the deployment command
does so with the project subdirectory holding exactly the markup file
`index.html` and the manifest file `vercel.json`, in that order, and nothing
else. -/
theorem project_dir_exact_contents (env : DeployEnv)
    (vercel_token html_content project_name : String)
    (h : (deploy_to_vercel env vercel_token html_content project_name).cmdInvoked = true) :
    (deploy_to_vercel env vercel_token html_content project_name).filesAtInvoke =
      some [("index.html", html_content),
            ("vercel.json", Json.dumps (vercel_config project_name))] := by
  obtain ⟨res, fault⟩ := env
  rcases fault with _ | s
  · by_cases hr : res.returncode = 0 <;>
      simp [deploy_to_vercel, deployBody, hr]
  · cases s <;> simp [deploy_to_vercel, deployBody] at h ⊢

/-- C5 witness: a successful deployment run. -/
theorem project_dir_exact_contents_witness :
    (deploy_to_vercel ⟨⟨0, "https://octocat-portfolio.vercel.app\n", ""⟩, none⟩
        "tok" "<html></html>" "octocat-portfolio").cmdInvoked = true ∧
    (deploy_to_vercel ⟨⟨0, "https://octocat-portfolio.vercel.app\n", ""⟩, none⟩
        "tok" "<html></html>" "octocat-portfolio").filesAtInvoke =
      some [("index.html", "<html></html>"),
            ("vercel.json", Json.dumps (vercel_config "octocat-portfolio"))] :=
  ⟨by decide,
   project_dir_exact_contents ⟨⟨0, "https://octocat-portfolio.vercel.app\n", ""⟩, none⟩
     "tok" "<html></html>" "octocat-portfolio" (by decide)⟩

/-- C6: for every profile record, `generate_website_content` submits exactly
two instruction messages in order — the system-role message first, then the
user-role message embedding `json.dumps(profile, indent=2)` — with
`temperature = 0.2` and `max_tokens = 2500`, and returns the service's
completion verbatim. -/
theorem generation_request_shape (chatService : ChatRequest → Except String String)
    (openai_api_key : String) (github_profile : Json) :
    generate_website_content chatService openai_api_key github_profile =
      chatService (generationRequest openai_api_key github_profile) ∧
    (generationRequest openai_api_key github_profile).messages =
      [{ role := .system, content := systemMessageText },
       { role := .human,
         content := promptIntro ++ Json.dumpsIndent 0 github_profile ++ "\n        " }] ∧
    (generationRequest openai_api_key github_profile).client.temperature = 0.2 ∧
    (generationRequest openai_api_key github_profile).client.max_tokens = 2500 :=
  ⟨rfl, rfl, rfl, rfl⟩

/-- C7: in a normal run of `deploy_to_vercel`, the success report (with the
stripped standard output) is printed exactly when the command exits with
status zero, the failure report carrying the error output is printed exactly
when the status is nonzero, and no exception propagates in either case. -/
theorem deploy_report_by_exit_status (vercel_token html_content project_name : String)
    (res : CmdResult) :
    (deploy_to_vercel ⟨res, none⟩ vercel_token html_content project_name).exc = none ∧
    (res.returncode = 0 →
      (deploy_to_vercel ⟨res, none⟩ vercel_token html_content project_name).printed =
        ["Deployment successful!", "Your website is live at: " ++ pyStrip res.stdout]) ∧
    (res.returncode ≠ 0 →
      (deploy_to_vercel ⟨res, none⟩ vercel_token html_content project_name).printed =
        ["Deployment failed: " ++ res.stderr]) := by
  by_cases hr : res.returncode = 0 <;>
    simp [deploy_to_vercel, deployBody, hr]

/-- C7 witness: one run exiting 0 and one exiting 1. -/
theorem deploy_report_by_exit_status_witness :
    ((0 : Int) = 0 ∧
      (deploy_to_vercel ⟨⟨0, "https://octocat-portfolio.vercel.app\n", ""⟩, none⟩
          "tok" "<html></html>" "octocat-portfolio").printed =
        ["Deployment successful!",
         "Your website is live at: https://octocat-portfolio.vercel.app"]) ∧
    ((1 : Int) ≠ 0 ∧
      (deploy_to_vercel ⟨⟨1, "", "Invalid token"⟩, none⟩
          "tok" "<html></html>" "octocat-portfolio").printed =
        ["Deployment failed: Invalid token"]) :=
  ⟨⟨rfl, (deploy_report_by_exit_status "tok" "<html></html>" "octocat-portfolio"
      ⟨0, "https://octocat-portfolio.vercel.app\n", ""⟩).2.1 rfl⟩,
   ⟨by decide, (deploy_report_by_exit_status "tok" "<html></html>" "octocat-portfolio"
      ⟨1, "", "Invalid token"⟩).2.2 (by decide)⟩⟩

/-- C8 counterexample: a run in which the generation service fails.  The code
has no try/except around the generation call, so a generation error — an
error of the spec's taxonomy — propagates as an uncaught exception and
nothing at all is printed to the console, contradicting the claim that every
taxonomy error is surfaced as console output rather than an exception. -/
theorem generation_error_not_printed_cex :
    (create_portfolio_for_github_user
        ⟨200, .ok (Json.obj []), fun _ => .error "quota exceeded", ⟨0, "", ""⟩, none⟩
        "tok" "key" "octocat").exc = some (.generationError "quota exceeded") ∧
    (create_portfolio_for_github_user
        ⟨200, .ok (Json.obj []), fun _ => .error "quota exceeded", ⟨0, "", ""⟩, none⟩
        "tok" "key" "octocat").printed = [] := by
  constructor <;> rfl

/-- C8 amended: every error in the taxonomy is terminal for the current run,
but only fetch and deployment errors are surfaced as human-readable console
output; a missing credential is raised as an exception at startup, and a
generation-service error propagates as an uncaught exception with nothing
printed. -/
theorem error_surfacing_amended (w : World)
    (vercel_token openai_api_key username : String) (profile : Json) (msg html : String) :
    (∀ k, startupCheck none k =
      .error "Environment variables for VERCEL_TOKEN or OPENAI_API_KEY are not set.") ∧
    (w.fetchStatus ≠ 200 →
      (create_portfolio_for_github_user w vercel_token openai_api_key username).printed =
        ["Error fetching GitHub profile data. Status code: " ++ toString w.fetchStatus] ∧
      (create_portfolio_for_github_user w vercel_token openai_api_key username).exc = none ∧
      (create_portfolio_for_github_user w vercel_token openai_api_key username).deploy = none) ∧
    (w.fetchStatus = 200 → w.fetchJson = .ok profile →
      w.chatService (generationRequest openai_api_key profile) = .error msg →
      (create_portfolio_for_github_user w vercel_token openai_api_key username).exc =
        some (.generationError msg) ∧
      (create_portfolio_for_github_user w vercel_token openai_api_key username).printed = [] ∧
      (create_portfolio_for_github_user w vercel_token openai_api_key username).deploy = none) ∧
    (w.fetchStatus = 200 → w.fetchJson = .ok profile →
      w.chatService (generationRequest openai_api_key profile) = .ok html →
      w.deployFault = none → w.cmdResult.returncode ≠ 0 →
      (create_portfolio_for_github_user w vercel_token openai_api_key username).printed =
        ["Deployment failed: " ++ w.cmdResult.stderr] ∧
      (create_portfolio_for_github_user w vercel_token openai_api_key username).exc = none) := by
  refine ⟨fun k => rfl, fun h => ?_, fun h1 h2 h3 => ?_, fun h1 h2 h3 h4 h5 => ?_⟩
  · simp [create_portfolio_for_github_user, h]
  · simp [create_portfolio_for_github_user, generate_website_content, h1, h2, h3]
  · simp [create_portfolio_for_github_user, generate_website_content, deploy_to_vercel,
          deployBody, h1, h2, h3, h4, h5]

/-- C8 amended witness: one run per taxonomy case — fetch status 500,
generation failure, deployment exit 1 — each discharging its hypotheses. -/
theorem error_surfacing_amended_witness :
    ((create_portfolio_for_github_user
        ⟨500, .ok (Json.obj []), fun _ => .ok "<html></html>", ⟨0, "", ""⟩, none⟩
        "tok" "key" "octocat").printed =
      ["Error fetching GitHub profile data. Status code: 500"] ∧
     (create_portfolio_for_github_user
        ⟨500, .ok (Json.obj []), fun _ => .ok "<html></html>", ⟨0, "", ""⟩, none⟩
        "tok" "key" "octocat").exc = none ∧
     (create_portfolio_for_github_user
        ⟨500, .ok (Json.obj []), fun _ => .ok "<html></html>", ⟨0, "", ""⟩, none⟩
        "tok" "key" "octocat").deploy = none) ∧
    ((create_portfolio_for_github_user
        ⟨200, .ok (Json.obj []), fun _ => .error "model overloaded", ⟨0, "", ""⟩, none⟩
        "tok" "key" "octocat").exc = some (.generationError "model overloaded") ∧
     (create_portfolio_for_github_user
        ⟨200, .ok (Json.obj []), fun _ => .error "model overloaded", ⟨0, "", ""⟩, none⟩
        "tok" "key" "octocat").printed = [] ∧
     (create_portfolio_for_github_user
        ⟨200, .ok (Json.obj []), fun _ => .error "model overloaded", ⟨0, "", ""⟩, none⟩
        "tok" "key" "octocat").deploy = none) ∧
    ((create_portfolio_for_github_user
        ⟨200, .ok (Json.obj []), fun _ => .ok "<html></html>", ⟨1, "", "Invalid token"⟩, none⟩
        "tok" "key" "octocat").printed = ["Deployment failed: Invalid token"] ∧
     (create_portfolio_for_github_user
        ⟨200, .ok (Json.obj []), fun _ => .ok "<html></html>", ⟨1, "", "Invalid token"⟩, none⟩
        "tok" "key" "octocat").exc = none) :=
  ⟨(error_surfacing_amended
      ⟨500, .ok (Json.obj []), fun _ => .ok "<html></html>", ⟨0, "", ""⟩, none⟩
      "tok" "key" "octocat" (Json.obj []) "m" "h").2.1 (by decide),
   (error_surfacing_amended
      ⟨200, .ok (Json.obj []), fun _ => .error "model overloaded", ⟨0, "", ""⟩, none⟩
      "tok" "key" "octocat" (Json.obj []) "model overloaded" "h").2.2.1 rfl rfl rfl,
   (error_surfacing_amended
      ⟨200, .ok (Json.obj []), fun _ => .ok "<html></html>", ⟨1, "", "Invalid token"⟩, none⟩
      "tok" "key" "octocat" (Json.obj []) "m" "<html></html>").2.2.2 rfl rfl rfl rfl
      (by decide)⟩

/-- C9: when the generation service raises, the run aborts with the
generation error before `deploy_to_vercel` is ever called — so before any
file is written to a temporary directory and before the deployment command is
invoked. -/
theorem generation_failure_aborts_early (w : World)
    (vercel_token openai_api_key username : String) (profile : Json) (msg : String)
    (h200 : w.fetchStatus = 200) (hjson : w.fetchJson = .ok profile)
    (hgen : w.chatService (generationRequest openai_api_key profile) = .error msg) :
    (create_portfolio_for_github_user w vercel_token openai_api_key username).deploy = none ∧
    (create_portfolio_for_github_user w vercel_token openai_api_key username).filesWritten = [] ∧
    (create_portfolio_for_github_user w vercel_token openai_api_key
      username).deployCmdInvoked = false ∧
    (create_portfolio_for_github_user w vercel_token openai_api_key username).exc =
      some (.generationError msg) := by
  simp [create_portfolio_for_github_user, generate_website_content, h200, hjson, hgen,
        RunOutcome.filesWritten, RunOutcome.deployCmdInvoked]

/-- C9 witness: the generation service raises a quota error. -/
theorem generation_failure_aborts_early_witness :
    (create_portfolio_for_github_user
        ⟨200, .ok (Json.obj [("login", Json.str "octocat")]),
         fun _ => .error "Rate limit reached", ⟨0, "", ""⟩, none⟩
        "tok" "key" "octocat").deploy = none ∧
    (create_portfolio_for_github_user
        ⟨200, .ok (Json.obj [("login", Json.str "octocat")]),
         fun _ => .error "Rate limit reached", ⟨0, "", ""⟩, none⟩
        "tok" "key" "octocat").filesWritten = [] ∧
    (create_portfolio_for_github_user
        ⟨200, .ok (Json.obj [("login", Json.str "octocat")]),
         fun _ => .error "Rate limit reached", ⟨0, "", ""⟩, none⟩
        "tok" "key" "octocat").deployCmdInvoked = false ∧
    (create_portfolio_for_github_user
        ⟨200, .ok (Json.obj [("login", Json.str "octocat")]),
         fun _ => .error "Rate limit reached", ⟨0, "", ""⟩, none⟩
        "tok" "key" "octocat").exc = some (.generationError "Rate limit reached") :=
  generation_failure_aborts_early
    ⟨200, .ok (Json.obj [("login", Json.str "octocat")]),
     fun _ => .error "Rate limit reached", ⟨0, "", ""⟩, none⟩
    "tok" "key" "octocat" (Json.obj [("login", Json.str "octocat")])
    "Rate limit reached" rfl rfl rfl

/-- C10: a 200 fetch whose body fails to decode as JSON makes
`create_portfolio_for_github_user` propagate the uncaught decoding exception:
nothing is printed (in particular no fetch-status message), and neither the
generation step nor the deployment step runs. -/
theorem invalid_json_uncaught (w : World)
    (vercel_token openai_api_key username : String) (msg : String)
    (h200 : w.fetchStatus = 200) (hjson : w.fetchJson = .error msg) :
    (create_portfolio_for_github_user w vercel_token openai_api_key username).exc =
      some (.jsonDecodeError msg) ∧
    (create_portfolio_for_github_user w vercel_token openai_api_key username).printed = [] ∧
    (create_portfolio_for_github_user w vercel_token openai_api_key
      username).genInvoked = false ∧
    (create_portfolio_for_github_user w vercel_token openai_api_key username).deploy
      = none := by
  simp [create_portfolio_for_github_user, h200, hjson]

/-- C10 witness: status 200 with a non-JSON body. -/
theorem invalid_json_uncaught_witness :
    (create_portfolio_for_github_user
        ⟨200, .error "Expecting value: line 1 column 1 (char 0)",
         fun _ => .ok "<html></html>", ⟨0, "", ""⟩, none⟩
        "tok" "key" "octocat").exc =
      some (.jsonDecodeError "Expecting value: line 1 column 1 (char 0)") ∧
    (create_portfolio_for_github_user
        ⟨200, .error "Expecting value: line 1 column 1 (char 0)",
         fun _ => .ok "<html></html>", ⟨0, "", ""⟩, none⟩
        "tok" "key" "octocat").printed = [] ∧
    (create_portfolio_for_github_user
        ⟨200, .error "Expecting value: line 1 column 1 (char 0)",
         fun _ => .ok "<html></html>", ⟨0, "", ""⟩, none⟩
        "tok" "key" "octocat").genInvoked = false ∧
    (create_portfolio_for_github_user
        ⟨200, .error "Expecting value: line 1 column 1 (char 0)",
         fun _ => .ok "<html></html>", ⟨0, "", ""⟩, none⟩
        "tok" "key" "octocat").deploy = none :=
  invalid_json_uncaught
    ⟨200, .error "Expecting value: line 1 column 1 (char 0)",
     fun _ => .ok "<html></html>", ⟨0, "", ""⟩, none⟩
    "tok" "key" "octocat" "Expecting value: line 1 column 1 (char 0)" rfl rfl
